import Mathlib

/-!
Shallow embedding of the movie-review REST service
(Express + Mongoose, files src/app.js, src/moby.js, src/unnamed/part_000,
src/unnamed/part_001).

The data model follows the Mongoose schemas in src/app.js (reviewSchema,
movieSchema): a Movie has an id, a unique title and an embedded ordered
list of Reviews; a Review has an id, a numeric rating and a comment.
Timestamps (createdAt / updatedAt) are owned by the persistence layer and
real time is not modelled. JSON numbers are modelled as rationals, JSON
strings as Lean strings, and an absent body field as none.

Each Express handler becomes a pure function from the database state (a
list of Movie documents) and the request data to a result and the new
database state. Response statuses (200/201/400/404/500) are carried
explicitly; response bodies that echo a document are carried in the
success constructor. Error-message texts are not modelled.
-/

namespace MovieApi

/-- Review document, from reviewSchema in src/app.js lines 172-175:
rating is a Number (no integrality constraint in the schema) and comment a
String; embedded subdocuments get a generated id. -/
structure Review where
  id : String
  rating : ℚ
  comment : String
deriving Repr, DecidableEq

/-- Movie document, from movieSchema in src/app.js lines 177-180: a title
and an embedded array of reviews, plus the store-assigned id. -/
structure Movie where
  id : String
  title : String
  reviews : List Review
deriving Repr, DecidableEq

/-- The Movie collection: the single MongoDB collection of Movie documents,
in insertion order. -/
abbrev Db := List Movie

/-- Outcome of one handler: either res.status(s).json(body) echoing a
document, or res.status(s).json message object (message text not
modelled). -/
inductive HandlerResult (α : Type) where
  | success (status : Nat) (body : α)
  | failure (status : Nat)
deriving Repr, DecidableEq

/-- HTTP status carried by a handler result. -/
def HandlerResult.status {α : Type} : HandlerResult α → Nat
  | .success s _ => s
  | .failure s => s

/-- Hexadecimal digit test, for the well-formedness of a MongoDB ObjectId
string. -/
def isHexChar (c : Char) : Bool :=
  c.isDigit || ('a' ≤ c && c ≤ 'f') || ('A' ≤ c && c ≤ 'F')

/-- Well-formedness of a raw identifier: a MongoDB ObjectId is 24 hex
characters. A raw path parameter failing this makes the driver cast throw
(the catch branch of the get-by-id handler, which the source comments at
src/unnamed/part_000 line 70 and src/moby.js line 63 document as handling
the invalid-id CastError). -/
def validObjectId (s : String) : Bool :=
  s.length == 24 && s.data.all isHexChar

/-- Movie.findById on a raw path parameter: a malformed identifier throws
(modelled as the error case), otherwise the first document with that id is
returned, or none. -/
def findById (db : Db) (rawId : String) : Except Unit (Option Movie) :=
  if validObjectId rawId then .ok (db.find? (fun m => m.id == rawId))
  else .error ()

/-- Movie.findOneAndUpdate with option new:true: find the first document
satisfying the filter, replace it by its update, and return the updated
document (or none, leaving the collection unchanged). -/
def findOneAndUpdate (db : Db) (p : Movie → Bool) (f : Movie → Movie) :
    Option Movie × Db :=
  match db with
  | [] => (none, [])
  | m :: rest =>
    if p m then (some (f m), f m :: rest)
    else
      let r := findOneAndUpdate rest p f
      (r.1, m :: r.2)

/-- Movie.findByIdAndUpdate with option new:true: findOneAndUpdate
filtering on the primary id. -/
def findByIdAndUpdate (db : Db) (movieId : String) (f : Movie → Movie) :
    Option Movie × Db :=
  findOneAndUpdate db (fun m => m.id == movieId) f

/-- Movie.findByIdAndDelete: remove the document with the given id and
return its pre-deletion content, or none if no document matches. -/
def findByIdAndDelete (db : Db) (movieId : String) : Option Movie × Db :=
  match db with
  | [] => (none, [])
  | m :: rest =>
    if m.id == movieId then (some m, rest)
    else
      let r := findByIdAndDelete rest movieId
      (r.1, m :: r.2)

/-- Lexicographic comparison of character lists by codepoint, the
deterministic byte/codepoint order that the store uses for sort on a
string field. -/
def charListLe : List Char → List Char → Bool
  | [], _ => true
  | _ :: _, [] => false
  | a :: as, b :: bs =>
    if a = b then charListLe as bs else decide (a < b)

/-- Lexicographic comparison of strings by codepoint. -/
def strLe (a b : String) : Bool := charListLe a.data b.data

/-- Result of Movie.find().sort with title ascending, src/unnamed/part_000
line 29: all movies sorted by title. -/
def sortedByTitle (db : Db) : List Movie :=
  db.mergeSort (fun a b => strLe a.title b.title)

/-- GET /movies handler, src/unnamed/part_000 lines 27-34: respond 200
with all movies sorted ascending by title. -/
def listMovies (db : Db) : HandlerResult (List Movie) :=
  .success 200 (sortedByTitle db)

/-- GET /movies/:id handler, src/unnamed/part_000 lines 62-73: findById;
no match gives 404, a match is echoed with 200, and the catch branch
(invalid id format, per the source comment on line 70) gives 500. -/
def getMovieById (db : Db) (rawId : String) : HandlerResult Movie :=
  match findById db rawId with
  | .error _ => .failure 500
  | .ok none => .failure 404
  | .ok (some m) => .success 200 m

/-- POST /movies handler, src/unnamed/part_000 lines 98-110: a falsy title
(absent or empty string) gives 400 before any store call; then save either
hits the unique-title index (duplicate key, caught as 400) or inserts the
new movie with an empty review list and responds 201. The store-generated
id is passed in as newId. -/
def createMovie (db : Db) (newId : String) (title? : Option String) :
    HandlerResult Movie × Db :=
  match title? with
  | none => (.failure 400, db)
  | some t =>
    if t == "" then (.failure 400, db)
    else if db.any (fun m => m.title == t) then (.failure 400, db)
    else
      let m : Movie := { id := newId, title := t, reviews := [] }
      (.success 201 m, db ++ [m])

/-- DELETE /movies/:id handler, src/unnamed/part_000 lines 190-200:
findByIdAndDelete; no match gives 404, otherwise the deleted document (its
last pre-deletion state, reviews included) is echoed with 200. -/
def deleteMovie (db : Db) (rawId : String) : HandlerResult Movie × Db :=
  match (findByIdAndDelete db rawId).1 with
  | none => (.failure 404, db)
  | some m => (.success 200 m, (findByIdAndDelete db rawId).2)

/-- Body validation of POST /movies/:id/reviews, src/unnamed/part_000 line
280: rating undefined, or comment undefined, or rating out of the range
one to five. An empty comment string is defined, so it passes. -/
def addReviewInvalid (rating? : Option ℚ) (comment? : Option String) : Bool :=
  rating?.isNone || comment?.isNone ||
    (match rating? with
     | some r => decide (r < 1) || decide (r > 5)
     | none => false)

/-- POST /movies/:id/reviews handler, src/unnamed/part_000 lines 278-296:
validate the body, then findByIdAndUpdate pushing the new review onto the
reviews array (new:true); no match gives 404, otherwise the updated movie
is echoed with 200. The store-generated review id is passed in as
newReviewId. -/
def addReview (db : Db) (movieId newReviewId : String)
    (rating? : Option ℚ) (comment? : Option String) :
    HandlerResult Movie × Db :=
  if addReviewInvalid rating? comment? then (.failure 400, db)
  else
    match rating?, comment? with
    | some r, some c =>
      match (findByIdAndUpdate db movieId
          (fun m => { m with
            reviews := m.reviews ++ [{ id := newReviewId, rating := r, comment := c }] })).1 with
      | none => (.failure 404, db)
      | some m1 =>
        (.success 200 m1,
          (findByIdAndUpdate db movieId
            (fun m => { m with
              reviews := m.reviews ++ [{ id := newReviewId, rating := r, comment := c }] })).2)
    | _, _ => (.failure 400, db)

/-- Body validation of the PATCH review handler of src/unnamed/part_000
line 349: rating defined and out of range, or both fields undefined. -/
def patchInvalid000 (rating? : Option ℚ) (comment? : Option String) : Bool :=
  (match rating? with
   | some r => decide (r < 1) || decide (r > 5)
   | none => false)
    || (rating?.isNone && comment?.isNone)

/-- JavaScript truthiness of the rating body field in the PATCH handler of
src/unnamed/part_001 line 506: undefined and zero are falsy. -/
def truthyRating : Option ℚ → Bool
  | none => false
  | some r => !(decide (r = 0))

/-- JavaScript truthiness of the comment body field in the PATCH handler
of src/unnamed/part_001 line 506: undefined and the empty string are
falsy. -/
def truthyComment : Option String → Bool
  | none => false
  | some s => !(s == "")

/-- Body validation of the PATCH review handler of src/unnamed/part_001
line 506: rating defined and out of range, or both fields falsy. -/
def patchInvalid001 (rating? : Option ℚ) (comment? : Option String) : Bool :=
  (match rating? with
   | some r => decide (r < 1) || decide (r > 5)
   | none => false)
    || (!truthyRating rating? && !truthyComment comment?)

/-- The set-clause built on src/unnamed/part_000 lines 353-355 applied to
the positionally matched review: each field present in the body is set,
each absent field is left as it was. -/
def applyPatch (rating? : Option ℚ) (comment? : Option String) (rv : Review) :
    Review :=
  { rv with
    rating := rating?.getD rv.rating
    comment := comment?.getD rv.comment }

/-- Positional update on the reviews array: the positional operator
rewrites the first element whose id matched the filter, leaving every
other element (and the order) unchanged. -/
def setFirstMatching (reviewId : String) (rating? : Option ℚ)
    (comment? : Option String) : List Review → List Review
  | [] => []
  | rv :: rest =>
    if rv.id == reviewId then applyPatch rating? comment? rv :: rest
    else rv :: setFirstMatching reviewId rating? comment? rest

/-- PATCH /movies/:movieId/reviews/:reviewId handler shape shared verbatim
by src/unnamed/part_000 lines 345-373 and src/unnamed/part_001 lines
502-530, which differ only in the validation predicate: validate the body,
then findOneAndUpdate filtering on the movie id together with the presence
of a review with the review id, setting the supplied fields on the
positionally matched review (new:true); no match (movie or review absent)
gives 404, otherwise the updated movie is echoed with 200. The driver
casts both path parameters to ObjectId when building the filter, so a
malformed movieId or reviewId throws CastError inside the try block and
lands in the catch branch (src/unnamed/part_000 line 371,
src/unnamed/part_001 line 528), which answers 400. -/
def patchReviewWith (invalid : Option ℚ → Option String → Bool) (db : Db)
    (movieId reviewId : String) (rating? : Option ℚ)
    (comment? : Option String) : HandlerResult Movie × Db :=
  if invalid rating? comment? then (.failure 400, db)
  else if !(validObjectId movieId && validObjectId reviewId) then
    (.failure 400, db)
  else
    match (findOneAndUpdate db
        (fun m => m.id == movieId && m.reviews.any (fun rv => rv.id == reviewId))
        (fun m => { m with
          reviews := setFirstMatching reviewId rating? comment? m.reviews })).1 with
    | none => (.failure 404, db)
    | some m1 =>
      (.success 200 m1,
        (findOneAndUpdate db
          (fun m => m.id == movieId && m.reviews.any (fun rv => rv.id == reviewId))
          (fun m => { m with
            reviews := setFirstMatching reviewId rating? comment? m.reviews })).2)

/-- The PATCH review handler of src/unnamed/part_000 lines 345-373. -/
def patchReview (db : Db) (movieId reviewId : String) (rating? : Option ℚ)
    (comment? : Option String) : HandlerResult Movie × Db :=
  patchReviewWith patchInvalid000 db movieId reviewId rating? comment?

/-- The PATCH review handler of src/unnamed/part_001 lines 502-530. -/
def patchReview001 (db : Db) (movieId reviewId : String) (rating? : Option ℚ)
    (comment? : Option String) : HandlerResult Movie × Db :=
  patchReviewWith patchInvalid001 db movieId reviewId rating? comment?

/-- DELETE /movies/:movieId/reviews/:reviewId handler, src/unnamed/part_000
lines 407-426: the driver casts the movieId and the reviewId inside the
pull clause to ObjectId, so a malformed one throws CastError inside the
try block and lands in the catch branch at lines 423-425, which answers
500; otherwise findByIdAndUpdate pulls every review whose id equals the
given review id (new:true); only a missing movie gives 404, otherwise the
updated movie is echoed with 200 whether or not any review matched. -/
def deleteReview (db : Db) (movieId reviewId : String) :
    HandlerResult Movie × Db :=
  if !(validObjectId movieId && validObjectId reviewId) then
    (.failure 500, db)
  else
  match (findByIdAndUpdate db movieId
      (fun m => { m with
        reviews := m.reviews.filter (fun rv => !(rv.id == reviewId)) })).1 with
  | none => (.failure 404, db)
  | some m1 =>
    (.success 200 m1,
      (findByIdAndUpdate db movieId
        (fun m => { m with
          reviews := m.reviews.filter (fun rv => !(rv.id == reviewId)) })).2)

/-! Helper lemmas about the embedded store primitives and the string
order used by the title sort. -/

theorem charListLe_total : ∀ as bs : List Char,
    charListLe as bs = true ∨ charListLe bs as = true
  | [], _ => Or.inl rfl
  | _ :: _, [] => Or.inr rfl
  | a :: as, b :: bs => by
    by_cases hab : a = b
    · subst hab
      simpa [charListLe] using charListLe_total as bs
    · rcases lt_or_gt_of_ne hab with h | h
      · left; simp [charListLe, hab, h]
      · right
        have hba : b ≠ a := fun e => hab e.symm
        simp [charListLe, hba, h]

theorem charListLe_trans : ∀ as bs cs : List Char,
    charListLe as bs = true → charListLe bs cs = true → charListLe as cs = true
  | [], _, _, _, _ => rfl
  | _ :: _, [], _, h1, _ => by simp [charListLe] at h1
  | _ :: _, _ :: _, [], _, h2 => by simp [charListLe] at h2
  | a :: as, b :: bs, c :: cs, h1, h2 => by
    by_cases hab : a = b <;> by_cases hbc : b = c
    · subst hab; subst hbc
      simp only [charListLe, if_pos rfl] at h1 h2 ⊢
      exact charListLe_trans as bs cs h1 h2
    · subst hab
      simp only [charListLe, if_pos rfl] at h1
      simpa [charListLe, hbc] using h2
    · subst hbc
      simp only [charListLe, if_pos rfl] at h2
      simpa [charListLe, hab] using h1
    · simp only [charListLe, if_neg hab, decide_eq_true_eq] at h1
      simp only [charListLe, if_neg hbc, decide_eq_true_eq] at h2
      have hac : a < c := lt_trans h1 h2
      simp [charListLe, ne_of_lt hac, hac]

theorem charListLe_antisymm : ∀ as bs : List Char,
    charListLe as bs = true → charListLe bs as = true → as = bs
  | [], [], _, _ => rfl
  | [], _ :: _, _, h2 => by simp [charListLe] at h2
  | _ :: _, [], h1, _ => by simp [charListLe] at h1
  | a :: as, b :: bs, h1, h2 => by
    by_cases hab : a = b
    · subst hab
      simp only [charListLe, if_pos rfl] at h1 h2
      rw [charListLe_antisymm as bs h1 h2]
    · have hba : b ≠ a := fun e => hab e.symm
      simp only [charListLe, if_neg hab, decide_eq_true_eq] at h1
      simp only [charListLe, if_neg hba, decide_eq_true_eq] at h2
      exact absurd h2 (lt_asymm h1)

theorem strLe_total (a b : String) : strLe a b = true ∨ strLe b a = true :=
  charListLe_total a.data b.data

theorem strLe_trans {a b c : String} (h1 : strLe a b = true)
    (h2 : strLe b c = true) : strLe a c = true :=
  charListLe_trans a.data b.data c.data h1 h2

theorem strLe_antisymm {a b : String} (h1 : strLe a b = true)
    (h2 : strLe b a = true) : a = b := by
  cases a; cases b
  exact congrArg String.mk (charListLe_antisymm _ _ h1 h2)

theorem findOneAndUpdate_fst (db : Db) (p : Movie → Bool) (f : Movie → Movie) :
    (findOneAndUpdate db p f).1 = (db.find? p).map f := by
  induction db with
  | nil => rfl
  | cons m rest ih =>
    by_cases h : p m <;> simp [findOneAndUpdate, List.find?_cons, h, ih]

theorem findOneAndUpdate_snd_of_none (db : Db) (p : Movie → Bool)
    (f : Movie → Movie) (h : db.find? p = none) :
    (findOneAndUpdate db p f).2 = db := by
  induction db with
  | nil => rfl
  | cons m rest ih =>
    rw [List.find?_cons] at h
    by_cases hm : p m
    · simp [hm] at h
    · simp only [hm, cond_false] at h
      simp [findOneAndUpdate, hm, ih h]

theorem findByIdAndDelete_fst (db : Db) (i : String) :
    (findByIdAndDelete db i).1 = db.find? (fun m => m.id == i) := by
  induction db with
  | nil => rfl
  | cons m rest ih =>
    by_cases h : m.id == i <;> simp [findByIdAndDelete, List.find?_cons, h, ih]

theorem findByIdAndDelete_snd_not_mem (db : Db) (i : String)
    (hnd : (db.map Movie.id).Nodup) :
    ∀ x ∈ (findByIdAndDelete db i).2, (x.id == i) = false := by
  induction db with
  | nil => intro x hx; simp [findByIdAndDelete] at hx
  | cons m rest ih =>
    rw [List.map_cons, List.nodup_cons] at hnd
    by_cases h : m.id == i
    · intro x hx
      simp only [findByIdAndDelete, if_pos h] at hx
      have hxid : x.id ≠ m.id := by
        intro e
        exact hnd.1 (e ▸ List.mem_map_of_mem Movie.id hx)
      have : m.id = i := by simpa using h
      simpa [this] using hxid
    · intro x hx
      simp only [findByIdAndDelete, if_neg h] at hx
      rcases List.mem_cons.mp hx with rfl | hx
      · simpa using h
      · exact ih hnd.2 x hx

theorem setFirstMatching_append (rid : String) (r? : Option ℚ)
    (c? : Option String) : ∀ (pre : List Review) (r : Review) (post : List Review),
    (∀ x ∈ pre, (x.id == rid) = false) → (r.id == rid) = true →
    setFirstMatching rid r? c? (pre ++ r :: post) =
      pre ++ applyPatch r? c? r :: post
  | [], r, post, _, hr => by simp [setFirstMatching, hr]
  | x :: pre, r, post, hpre, hr => by
    have hx : (x.id == rid) = false := hpre x (List.mem_cons_self x pre)
    simp only [List.cons_append, setFirstMatching, hx, Bool.false_eq_true,
      if_false, List.cons.injEq, true_and]
    exact setFirstMatching_append rid r? c? pre r post
      (fun y hy => hpre y (List.mem_cons_of_mem x hy)) hr

/-! Sample identifiers and documents, used to instantiate the theorems on
concrete inputs. -/

/-- A well-formed 24-hex-character identifier. -/
def idA : String := "aaaaaaaaaaaaaaaaaaaaaaaa"

/-- A second well-formed identifier, distinct from idA. -/
def idB : String := "bbbbbbbbbbbbbbbbbbbbbbbb"

/-- A movie document with no reviews. -/
def sampleMovie : Movie := { id := idA, title := "Inception", reviews := [] }

/-- A one-movie collection. -/
def sampleDb : Db := [sampleMovie]

/-- A review document on the sample movie. -/
def sampleReview : Review := { id := idB, rating := 4, comment := "Great" }

/-- The sample movie carrying one review. -/
def movieWithReview : Movie :=
  { id := idA, title := "Inception", reviews := [sampleReview] }

/-- A one-movie collection whose movie carries one review. -/
def dbWithReview : Db := [movieWithReview]

/-- The rational seven halves, the JSON number 3.5, built directly from
numerator and denominator. -/
def sevenHalves : ℚ := ⟨7, 2, by norm_num, by norm_num⟩

/-- C1 counterexample: on an existing Movie, the delete-review operation
with the malformed review id xyz does not succeed with 200 — the ObjectId
cast throws and the catch branch answers 500, contradicting the claim
that the operation succeeds for every review id on an existing Movie. -/
theorem c1_counterexample_malformed_review_id :
    sampleDb.find? (fun x => x.id == idA) = some sampleMovie ∧
    (deleteReview sampleDb idA "xyz").1 = .failure 500 ∧
    (deleteReview sampleDb idA "xyz").1.status ≠ 200 := by decide

/-- C1 (amended): for every existing Movie and every WELL-FORMED review
id, the delete-review operation responds 200: the review with that id is
removed from the Movie's reviews if present, and when no review matches
the Movie is returned with its reviews unchanged; a missing Movie under
well-formed ids yields 404; a malformed movie or review id falls into the
catch branch and yields 500. -/
theorem c1_delete_review_behavior (db : Db)
    (movieId reviewId : String) :
    (validObjectId movieId = true → validObjectId reviewId = true →
      (∀ m : Movie, db.find? (fun x => x.id == movieId) = some m →
        ∃ m1 : Movie, (deleteReview db movieId reviewId).1 = .success 200 m1 ∧
          m1.reviews = m.reviews.filter (fun rv => !(rv.id == reviewId)) ∧
          (∀ rv ∈ m1.reviews, (rv.id == reviewId) = false) ∧
          ((∀ rv ∈ m.reviews, (rv.id == reviewId) = false) → m1 = m)) ∧
      (db.find? (fun x => x.id == movieId) = none →
        deleteReview db movieId reviewId = (.failure 404, db))) ∧
    ((validObjectId movieId && validObjectId reviewId) = false →
      deleteReview db movieId reviewId = (.failure 500, db)) := by
  constructor
  · intro hv1 hv2
    have hguard : (!(validObjectId movieId && validObjectId reviewId)) =
        false := by
      rw [hv1, hv2]; rfl
    constructor
    · intro m hm
      have hfst : (findByIdAndUpdate db movieId
          (fun x => { x with
            reviews := x.reviews.filter (fun rv => !(rv.id == reviewId)) })).1 =
          some { m with
            reviews := m.reviews.filter (fun rv => !(rv.id == reviewId)) } := by
        rw [findByIdAndUpdate, findOneAndUpdate_fst, hm, Option.map_some']
      refine ⟨{ m with
        reviews := m.reviews.filter (fun rv => !(rv.id == reviewId)) },
        ?_, rfl, ?_, ?_⟩
      · unfold deleteReview
        rw [hguard]
        simp only [Bool.false_eq_true, if_false]
        rw [hfst]
      · intro rv hrv
        have h := List.of_mem_filter hrv
        simpa using h
      · intro hnone
        have hfe : m.reviews.filter (fun rv => !(rv.id == reviewId)) =
            m.reviews :=
          List.filter_eq_self.mpr (fun rv hrv => by rw [hnone rv hrv]; rfl)
        rw [hfe]
    · intro hm
      have hfst : (findByIdAndUpdate db movieId
          (fun x => { x with
            reviews := x.reviews.filter (fun rv => !(rv.id == reviewId)) })).1 =
          none := by
        rw [findByIdAndUpdate, findOneAndUpdate_fst, hm, Option.map_none']
      unfold deleteReview
      rw [hguard]
      simp only [Bool.false_eq_true, if_false]
      rw [hfst]
  · intro hg
    unfold deleteReview
    rw [hg]
    rfl

theorem c1_witness :
    ∃ m1 : Movie, (deleteReview sampleDb idA idB).1 = .success 200 m1 ∧
      m1.reviews = sampleMovie.reviews.filter (fun rv => !(rv.id == idB)) ∧
      (∀ rv ∈ m1.reviews, (rv.id == idB) = false) ∧
      ((∀ rv ∈ sampleMovie.reviews, (rv.id == idB) = false) →
        m1 = sampleMovie) :=
  ((c1_delete_review_behavior sampleDb idA idB).1 (by decide) (by decide)).1
    sampleMovie (by decide)

/-- C3 counterexample: with a valid body, an existing Movie and the
malformed review id zz (which matches no embedded review), the
update-review operation does not answer 404 — the ObjectId cast throws
and the catch branch answers 400, contradicting the claim that a
non-matching review id on an existing Movie yields not-found. -/
theorem c3_counterexample_malformed_review_id :
    dbWithReview.find? (fun x => x.id == idA) = some movieWithReview ∧
    movieWithReview.reviews.any (fun rv => rv.id == "zz") = false ∧
    (patchReview dbWithReview idA "zz" (some 3) none).1 = .failure 400 ∧
    (patchReview dbWithReview idA "zz" (some 3) none).1.status ≠ 404 := by
  decide

/-- C3 (amended): the update-review operation responds 400, issuing no
store operation, whenever the body supplies no field or supplies an
out-of-range rating; when the body is valid and both ids are well-formed
but the movie is absent or no embedded review matches the review id, it
responds 404; when the body is valid but either id is malformed, the
ObjectId cast throws and the catch branch responds 400. -/
theorem c3_patch_review_errors (db : Db) (movieId reviewId : String)
    (rating? : Option ℚ) (comment? : Option String) :
    ((rating? = none ∧ comment? = none) ∨
        (∃ q, rating? = some q ∧ (q < 1 ∨ 5 < q)) →
      patchReview db movieId reviewId rating? comment? = (.failure 400, db)) ∧
    (patchInvalid000 rating? comment? = false →
      validObjectId movieId = true → validObjectId reviewId = true →
      db.find? (fun m => m.id == movieId &&
        m.reviews.any (fun rv => rv.id == reviewId)) = none →
      patchReview db movieId reviewId rating? comment? =
        (.failure 404, db)) ∧
    (patchInvalid000 rating? comment? = false →
      (validObjectId movieId && validObjectId reviewId) = false →
      patchReview db movieId reviewId rating? comment? =
        (.failure 400, db)) := by
  refine ⟨?_, ?_, ?_⟩
  · intro h
    have hinv : patchInvalid000 rating? comment? = true := by
      rcases h with ⟨h1, h2⟩ | ⟨q, hq, hlt⟩
      · subst h1; subst h2; rfl
      · subst hq
        rcases hlt with hlt | hlt <;>
          simp [patchInvalid000, hlt, not_lt_of_gt hlt]
    simp [patchReview, patchReviewWith, hinv]
  · intro hinv hv1 hv2 hfind
    have hfst : (findOneAndUpdate db
        (fun m => m.id == movieId &&
          m.reviews.any (fun rv => rv.id == reviewId))
        (fun m => { m with
          reviews := setFirstMatching reviewId rating? comment? m.reviews })).1 =
        none := by
      rw [findOneAndUpdate_fst, hfind, Option.map_none']
    simp only [patchReview, patchReviewWith, hinv, hv1, hv2, Bool.and_self,
      Bool.not_true, Bool.false_eq_true, if_false]
    rw [hfst]
  · intro hinv hg
    simp only [patchReview, patchReviewWith, hinv, hg, Bool.not_false,
      Bool.false_eq_true, if_false, if_true]

theorem c3_witness :
    patchReview sampleDb idA idB none none = (.failure 400, sampleDb) :=
  (c3_patch_review_errors sampleDb idA idB none none).1 (Or.inl ⟨rfl, rfl⟩)

/-- C4 counterexample: a review body carrying an in-range rating and an
EMPTY comment string is not rejected — the handler validation only tests
comment for undefined, the store push is issued, and on an existing movie
the response is 200 with the reviews length grown by one, contradicting
the claim that an empty comment yields 400 with the reviews length
unchanged. -/
theorem c4_counterexample_empty_comment :
    (addReview sampleDb idA idB (some 3) (some "")).1.status = 200 ∧
    (addReview sampleDb idA idB (some 3) (some "")).1.status ≠ 400 ∧
    (addReview sampleDb idA idB (some 3) (some "")).2.map
      (fun m => m.reviews.length) = [1] ∧
    sampleDb.map (fun m => m.reviews.length) = [0] := by decide

/-- C4 (amended): the add-review operation rejects with 400, issuing no
store operation, when the rating is absent, the comment is absent, or the
rating is out of the range one to five; when both fields are present (the
comment may be any string, even empty) and the rating is in range, the
review is appended to an existing Movie's reviews and echoed with 200. -/
theorem c4_add_review_validation (db : Db) (movieId newReviewId : String)
    (rating? : Option ℚ) (comment? : Option String) :
    (rating? = none ∨ comment? = none ∨
        (∃ q, rating? = some q ∧ (q < 1 ∨ 5 < q)) →
      addReview db movieId newReviewId rating? comment? =
        (.failure 400, db)) ∧
    (∀ (r : ℚ) (c : String) (m : Movie), rating? = some r → comment? = some c →
      1 ≤ r → r ≤ 5 → db.find? (fun x => x.id == movieId) = some m →
      ∃ m1 : Movie, (addReview db movieId newReviewId rating? comment?).1 =
          .success 200 m1 ∧
        m1.reviews = m.reviews ++
          [{ id := newReviewId, rating := r, comment := c }]) := by
  constructor
  · intro h
    have hinv : addReviewInvalid rating? comment? = true := by
      rcases h with h1 | h2 | ⟨q, hq, hlt⟩
      · subst h1; rfl
      · subst h2; simp [addReviewInvalid]
      · subst hq
        rcases hlt with hlt | hlt <;>
          simp [addReviewInvalid, hlt, not_lt_of_gt hlt]
    simp [addReview, hinv]
  · intro r c m hr hc h1 h5 hm
    subst hr; subst hc
    have hinv : addReviewInvalid (some r) (some c) = false := by
      simp [addReviewInvalid, not_lt_of_ge h1, not_lt_of_ge h5]
    have hfst : (findByIdAndUpdate db movieId
        (fun x => { x with
          reviews := x.reviews ++
            [{ id := newReviewId, rating := r, comment := c }] })).1 =
        some { m with
          reviews := m.reviews ++
            [{ id := newReviewId, rating := r, comment := c }] } := by
      rw [findByIdAndUpdate, findOneAndUpdate_fst, hm, Option.map_some']
    refine ⟨{ m with
      reviews := m.reviews ++
        [{ id := newReviewId, rating := r, comment := c }] }, ?_, rfl⟩
    simp only [addReview, hinv, Bool.false_eq_true, if_false]
    rw [hfst]

theorem c4_witness :
    addReview sampleDb idA idB none (some "hi") = (.failure 400, sampleDb) ∧
    ∃ m1 : Movie, (addReview sampleDb idA idB (some 5) (some "Great")).1 =
        .success 200 m1 ∧
      m1.reviews = sampleMovie.reviews ++
        [{ id := idB, rating := 5, comment := "Great" }] :=
  ⟨(c4_add_review_validation sampleDb idA idB none (some "hi")).1
      (Or.inl rfl),
    (c4_add_review_validation sampleDb idA idB (some 5) (some "Great")).2
      5 "Great" sampleMovie rfl rfl (by norm_num) (by norm_num) (by decide)⟩

/-- C5: the create-movie operation rejects a missing or empty title with
400 and an unchanged collection; a duplicate title (the unique-title index
violation the save call catches) also yields 400 with the collection
unchanged, so exactly one Movie with that title remains; and for distinct
valid fresh titles, creating the first and then the second both succeed
with 201. -/
theorem c5_create_movie_validation (db : Db) (newId1 newId2 t1 t2 : String) :
    (createMovie db newId1 none = (.failure 400, db) ∧
      createMovie db newId1 (some "") = (.failure 400, db)) ∧
    (t1 ≠ "" → db.any (fun m => m.title == t1) = true →
      createMovie db newId1 (some t1) = (.failure 400, db) ∧
      ((db.filter (fun m => m.title == t1)).length = 1 →
        ((createMovie db newId1 (some t1)).2.filter
          (fun m => m.title == t1)).length = 1)) ∧
    (t1 ≠ "" → t2 ≠ "" → t1 ≠ t2 →
      db.any (fun m => m.title == t1) = false →
      db.any (fun m => m.title == t2) = false →
      (createMovie db newId1 (some t1)).1 =
        .success 201 { id := newId1, title := t1, reviews := [] } ∧
      (createMovie (createMovie db newId1 (some t1)).2 newId2 (some t2)).1 =
        .success 201 { id := newId2, title := t2, reviews := [] }) := by
  refine ⟨⟨rfl, rfl⟩, ?_, ?_⟩
  · intro ht hdup
    have hne : (t1 == "") = false := by simpa using ht
    constructor
    · simp [createMovie, hne, hdup]
    · intro hone
      simpa [createMovie, hne, hdup] using hone
  · intro ht1 ht2 hne hfresh1 hfresh2
    have hb1 : (t1 == "") = false := by simpa using ht1
    have hb2 : (t2 == "") = false := by simpa using ht2
    constructor
    · simp [createMovie, hb1, hfresh1]
    · have hsnd : (createMovie db newId1 (some t1)).2 =
          db ++ [{ id := newId1, title := t1, reviews := [] }] := by
        simp [createMovie, hb1, hfresh1]
      rw [hsnd]
      have hfresh2' : ((db ++
          ([{ id := newId1, title := t1, reviews := [] }] : List Movie)).any
            (fun m => m.title == t2)) = false := by
        rw [List.any_append, hfresh2]
        simpa using hne
      simp [createMovie, hb2, hfresh2']

theorem c5_witness :
    (createMovie [] idA (some "Alpha")).1 =
      .success 201 { id := idA, title := "Alpha", reviews := [] } ∧
    (createMovie (createMovie [] idA (some "Alpha")).2 idB
        (some "Beta")).1 =
      .success 201 { id := idB, title := "Beta", reviews := [] } :=
  (c5_create_movie_validation [] idA idB "Alpha" "Beta").2.2
    (by decide) (by decide) (by decide) rfl rfl

/-- C6 counterexample: a malformed identifier is handled by the catch
branch of the get-by-id handler and yields 500, not the not-found
response the claim promises. -/
theorem c6_counterexample_malformed_id :
    validObjectId "xyz" = false ∧
    getMovieById sampleDb "xyz" = .failure 500 ∧
    getMovieById sampleDb "xyz" ≠ .failure 404 := by decide

/-- C6 (amended): on the get-movie-by-id operation an absent Movie under a
well-formed identifier yields 404 and a present Movie is echoed with 200,
while a malformed identifier falls into the same catch branch as a store
failure and yields the internal-error response 500. -/
theorem c6_get_movie_by_id_mapping (db : Db) (rawId : String) :
    (validObjectId rawId = false → getMovieById db rawId = .failure 500) ∧
    (validObjectId rawId = true →
      db.find? (fun m => m.id == rawId) = none →
      getMovieById db rawId = .failure 404) ∧
    (∀ m : Movie, validObjectId rawId = true →
      db.find? (fun m => m.id == rawId) = some m →
      getMovieById db rawId = .success 200 m) := by
  refine ⟨?_, ?_, ?_⟩
  · intro hv
    simp [getMovieById, findById, hv]
  · intro hv hnone
    simp [getMovieById, findById, hv, hnone]
  · intro m hv hm
    simp [getMovieById, findById, hv, hm]

theorem c6_witness :
    getMovieById sampleDb "zz" = .failure 500 ∧
    getMovieById sampleDb idB = .failure 404 :=
  ⟨(c6_get_movie_by_id_mapping sampleDb "zz").1 (by decide),
    (c6_get_movie_by_id_mapping sampleDb idB).2.1 (by decide) (by decide)⟩

/-- C2: for a Movie containing a Review matched by a well-formed id under
a well-formed movie id (the only ids the store ever assigns), the
update-review operation modifies only the supplied fields of that one
matched Review
(the first element carrying the review id): an absent rating field leaves
the rating unchanged and an absent comment field leaves the comment
unchanged, every other element of the reviews sequence keeps its place and
value, and the Movie's other fields (id, title) are unchanged. -/
theorem c2_patch_review_frame (db : Db) (movieId reviewId : String)
    (rating? : Option ℚ) (comment? : Option String) (m : Movie)
    (pre post : List Review) (r : Review)
    (hv1 : validObjectId movieId = true)
    (hv2 : validObjectId reviewId = true)
    (hvalid : patchInvalid000 rating? comment? = false)
    (hfind : db.find? (fun x => x.id == movieId &&
      x.reviews.any (fun rv => rv.id == reviewId)) = some m)
    (hsplit : m.reviews = pre ++ r :: post)
    (hpre : ∀ x ∈ pre, (x.id == reviewId) = false)
    (hr : (r.id == reviewId) = true) :
    ∃ m1 : Movie, (patchReview db movieId reviewId rating? comment?).1 =
        .success 200 m1 ∧
      m1.id = m.id ∧ m1.title = m.title ∧
      m1.reviews = pre ++
        { r with rating := rating?.getD r.rating,
                 comment := comment?.getD r.comment } :: post ∧
      m1.reviews.length = m.reviews.length := by
  have hfst : (findOneAndUpdate db
      (fun x => x.id == movieId &&
        x.reviews.any (fun rv => rv.id == reviewId))
      (fun x => { x with
        reviews := setFirstMatching reviewId rating? comment? x.reviews })).1 =
      some { m with
        reviews := setFirstMatching reviewId rating? comment? m.reviews } := by
    rw [findOneAndUpdate_fst, hfind, Option.map_some']
  refine ⟨{ m with
    reviews := setFirstMatching reviewId rating? comment? m.reviews },
    ?_, rfl, rfl, ?_, ?_⟩
  · simp only [patchReview, patchReviewWith, hvalid, hv1, hv2, Bool.and_self,
      Bool.not_true, Bool.false_eq_true, if_false]
    rw [hfst]
  · show setFirstMatching reviewId rating? comment? m.reviews = _
    rw [hsplit, setFirstMatching_append reviewId rating? comment? pre r post
      hpre hr]
    rfl
  · show (setFirstMatching reviewId rating? comment? m.reviews).length = _
    rw [hsplit, setFirstMatching_append reviewId rating? comment? pre r post
      hpre hr]
    simp

theorem c2_witness :
    ∃ m1 : Movie, (patchReview dbWithReview idA idB (some 3) none).1 =
        .success 200 m1 ∧
      m1.id = movieWithReview.id ∧ m1.title = movieWithReview.title ∧
      m1.reviews = [] ++
        { sampleReview with rating := (some (3 : ℚ)).getD sampleReview.rating,
                            comment := (none : Option String).getD
                              sampleReview.comment } :: [] ∧
      m1.reviews.length = movieWithReview.reviews.length :=
  c2_patch_review_frame dbWithReview idA idB (some 3) none movieWithReview
    [] [] sampleReview (by decide) (by decide) (by decide) (by decide) rfl
    (by decide) (by decide)

/-- C7 (evaluation at the failing input): a review body carrying the
non-integral rating seven halves (the JSON number 3.5) passes the
handler's range check, the push is issued, and the non-integral rating is
persisted on the movie: no layer of the code enforces integrality of the
rating, contrary to the stated invariant. -/
theorem c7_nonintegral_rating_persisted :
    (addReview sampleDb idA idB (some sevenHalves) (some "ok")).1.status =
      200 ∧
    (addReview sampleDb idA idB (some sevenHalves) (some "ok")).2 =
      [{ id := idA, title := "Inception",
         reviews := [{ id := idB, rating := sevenHalves,
                       comment := "ok" }] }] ∧
    1 ≤ sevenHalves ∧ sevenHalves ≤ 5 ∧ sevenHalves.den ≠ 1 := by decide

/-- C8: the list-movies operation returns every stored Movie sorted in
non-decreasing lexicographic title order; as long as titles are unique
(the store-enforced invariant) any two insertion orders of the same
documents produce the same response. -/
theorem c8_list_movies_sorted (db1 db2 : Db) (hperm : db1.Perm db2)
    (hnd : (db1.map Movie.title).Nodup) :
    listMovies db1 = listMovies db2 ∧
    (sortedByTitle db1).Perm db1 ∧
    List.Sorted (fun a b : Movie => strLe a.title b.title = true)
      (sortedByTitle db1) := by
  have htrans : ∀ a b c : Movie, strLe a.title b.title = true →
      strLe b.title c.title = true → strLe a.title c.title = true :=
    fun _ _ _ h1 h2 => strLe_trans h1 h2
  have htotal : ∀ a b : Movie,
      (strLe a.title b.title || strLe b.title a.title) = true := by
    intro a b
    rcases strLe_total a.title b.title with h | h <;> simp [h]
  have hsorted1 : List.Sorted (fun a b : Movie => strLe a.title b.title = true)
      (sortedByTitle db1) :=
    List.sorted_mergeSort htrans htotal db1
  have hsorted2 : List.Sorted (fun a b : Movie => strLe a.title b.title = true)
      (sortedByTitle db2) :=
    List.sorted_mergeSort htrans htotal db2
  have hp1 : (sortedByTitle db1).Perm db1 :=
    List.mergeSort_perm db1 (fun a b => strLe a.title b.title)
  have hp2 : (sortedByTitle db2).Perm db2 :=
    List.mergeSort_perm db2 (fun a b => strLe a.title b.title)
  refine ⟨?_, hp1, hsorted1⟩
  have hp : (sortedByTitle db1).Perm (sortedByTitle db2) :=
    (hp1.trans hperm).trans hp2.symm
  have hnd1 : List.Pairwise (fun a b : Movie => a.title ≠ b.title)
      (sortedByTitle db1) := by
    have : ((sortedByTitle db1).map Movie.title).Nodup :=
      ((hp1.map Movie.title).nodup_iff).mpr hnd
    exact List.pairwise_map.mp this
  have hnd2 : List.Pairwise (fun a b : Movie => a.title ≠ b.title)
      (sortedByTitle db2) := by
    have hnd' : (db2.map Movie.title).Nodup :=
      ((hperm.map Movie.title).nodup_iff).mp hnd
    have : ((sortedByTitle db2).map Movie.title).Nodup :=
      ((hp2.map Movie.title).nodup_iff).mpr hnd'
    exact List.pairwise_map.mp this
  have hs1 : List.Sorted
      (fun a b : Movie => strLe a.title b.title = true ∧ a.title ≠ b.title)
      (sortedByTitle db1) := hsorted1.and hnd1
  have hs2 : List.Sorted
      (fun a b : Movie => strLe a.title b.title = true ∧ a.title ≠ b.title)
      (sortedByTitle db2) := hsorted2.and hnd2
  have heq : sortedByTitle db1 = sortedByTitle db2 :=
    @List.eq_of_perm_of_sorted Movie
      (fun a b : Movie => strLe a.title b.title = true ∧ a.title ≠ b.title)
      ⟨fun _ _ h1 h2 => absurd (strLe_antisymm h1.1 h2.1) h1.2⟩
      _ _ hp hs1 hs2
  unfold listMovies
  rw [heq]

theorem c8_witness :
    listMovies [sampleMovie, { id := idB, title := "Arrival", reviews := [] }] =
      listMovies [{ id := idB, title := "Arrival", reviews := [] },
        sampleMovie] ∧
    (sortedByTitle [sampleMovie,
      { id := idB, title := "Arrival", reviews := [] }]).Perm
      [sampleMovie, { id := idB, title := "Arrival", reviews := [] }] ∧
    List.Sorted (fun a b : Movie => strLe a.title b.title = true)
      (sortedByTitle [sampleMovie,
        { id := idB, title := "Arrival", reviews := [] }]) :=
  c8_list_movies_sorted
    [sampleMovie, { id := idB, title := "Arrival", reviews := [] }]
    [{ id := idB, title := "Arrival", reviews := [] }, sampleMovie]
    (by decide) (by decide)

/-- C9: deleting an existing Movie echoes its final pre-deletion state,
embedded reviews included, with 200; afterwards a get with the same id
answers 404, and no remaining document carries that id, so the embedded
reviews are unreachable. -/
theorem c9_delete_movie_then_get (db : Db) (rawId : String) (m : Movie)
    (hv : validObjectId rawId = true)
    (hnd : (db.map Movie.id).Nodup)
    (hm : db.find? (fun x => x.id == rawId) = some m) :
    (deleteMovie db rawId).1 = .success 200 m ∧
    getMovieById (deleteMovie db rawId).2 rawId = .failure 404 ∧
    ∀ x ∈ (deleteMovie db rawId).2, x.id ≠ rawId := by
  have hfst : (findByIdAndDelete db rawId).1 = some m := by
    rw [findByIdAndDelete_fst, hm]
  have hdel : deleteMovie db rawId =
      (.success 200 m, (findByIdAndDelete db rawId).2) := by
    unfold deleteMovie
    rw [hfst]
  have hno : ∀ x ∈ (findByIdAndDelete db rawId).2, (x.id == rawId) = false :=
    findByIdAndDelete_snd_not_mem db rawId hnd
  refine ⟨by rw [hdel], ?_, ?_⟩
  · have hfind : ((findByIdAndDelete db rawId).2).find?
        (fun x => x.id == rawId) = none :=
      List.find?_eq_none.mpr (fun x hx => by rw [hno x hx]; exact Bool.false_ne_true)
    rw [hdel]
    simp [getMovieById, findById, hv, hfind]
  · intro x hx
    rw [hdel] at hx
    simpa using hno x hx

theorem c9_witness :
    (deleteMovie sampleDb idA).1 = .success 200 sampleMovie ∧
    getMovieById (deleteMovie sampleDb idA).2 idA = .failure 404 :=
  ⟨(c9_delete_movie_then_get sampleDb idA sampleMovie (by decide) (by decide)
      (by decide)).1,
    (c9_delete_movie_then_get sampleDb idA sampleMovie (by decide) (by decide)
      (by decide)).2.1⟩

/-- C10 counterexample: on the body with no rating and an empty-string
comment, the part_001 handler rejects with 400 (an empty string is falsy)
while the part_000 handler does not (the comment is defined), so the two
update-review handlers are not validation-equivalent. -/
theorem c10_counterexample_empty_comment_body :
    (patchReview001 sampleDb idA idB none (some "")).1.status = 400 ∧
    (patchReview sampleDb idA idB none (some "")).1.status ≠ 400 := by decide

/-- Equality of the two PATCH validation predicates away from the one
distinguishing body: rating absent together with an empty-string
comment. -/
theorem patchInvalid_eq_away_from_empty_comment (rating? : Option ℚ)
    (comment? : Option String)
    (h : ¬(rating? = none ∧ comment? = some "")) :
    patchInvalid000 rating? comment? = patchInvalid001 rating? comment? := by
  cases rating? with
  | none =>
    cases comment? with
    | none => rfl
    | some s =>
      have hs : s ≠ "" := by
        intro e
        exact h ⟨rfl, by rw [e]⟩
      simp [patchInvalid000, patchInvalid001, truthyRating, truthyComment, hs]
  | some r =>
    by_cases hr : r = 0
    · subst hr
      have h01 : decide ((0 : ℚ) < 1) = true := by decide
      simp [patchInvalid000, patchInvalid001, h01]
    · simp [patchInvalid000, patchInvalid001, truthyRating, truthyComment, hr]

/-- C10 (amended): the two update-review handlers return 400 for exactly
the same bodies, except the single body shape with rating absent and an
empty-string comment, where part_001 rejects and part_000 does not. -/
theorem c10_patch_handlers_agree (db : Db) (movieId reviewId : String)
    (rating? : Option ℚ) (comment? : Option String)
    (h : ¬(rating? = none ∧ comment? = some "")) :
    ((patchReview db movieId reviewId rating? comment?).1.status = 400 ↔
      (patchReview001 db movieId reviewId rating? comment?).1.status = 400) := by
  have he := patchInvalid_eq_away_from_empty_comment rating? comment? h
  unfold patchReview patchReview001 patchReviewWith
  rw [he]

theorem c10_witness :
    (patchReview sampleDb idA idB (some 3) none).1.status = 400 ↔
      (patchReview001 sampleDb idA idB (some 3) none).1.status = 400 :=
  c10_patch_handlers_agree sampleDb idA idB (some 3) none (by simp)

end MovieApi
